import Mathlib

/-!
Shallow embedding of the stream-lifecycle manager of the
`michilante_rtsp_dynamic_relay` repository (src/http_server/endpoints.rs,
src/http_server/appstate.rs, src/http_server/setup.rs).

Modelling conventions:
* `chrono::DateTime<Utc>` timestamps are `Int` counts of seconds;
  `chrono::Duration::minutes m` is `60 * m` seconds and
  `Duration::num_minutes` is truncated division by 60 (toward zero,
  as in Rust).
* The registry `Vec<StreamInfoInternal>` is a `List`; `retain` is `filter`,
  `push` appends at the end.
* The mount table of the gst RTSP server is an association list
  `List (String × Factory)`; `add_factory` replaces any factory already
  mounted at the path, `remove_factory` of an absent path is a no-op.
* The media map `HashMap<String, Vec<WeakRef<RTSPMedia>>>` is an association
  list; a weak reference is a `MediaHandle` whose `upgrade` is a snapshot of
  whether the media instance is still alive.
* `RTSPMedia::unprepare` may fail with an engine error; a `Media` value
  records the outcome the engine would give (`unprepare_ok`) together with
  its `n_streams` count.  Teardown functions additionally return the list of
  media instances that were actually asked to unprepare, as an event trace.
* Each call to `Utc::now()` in the source becomes an explicit `Int`
  argument, in the order the source reads the clock.
-/

namespace Relay

/-- Expiration policy of a registered stream (appstate.rs, `ExpirationDate`). -/
inductive ExpirationDate where
  | Never : ExpirationDate
  | At : Int → ExpirationDate
deriving DecidableEq, Repr

/-- Registry record (appstate.rs, `StreamInfoInternal`). -/
structure StreamInfoInternal where
  id : String
  name : String
  url : String
  expiration_date : ExpirationDate
  added_at : Int
deriving DecidableEq, Repr

/-- A live media instance as the engine would report it: its stream count and
whether an `unprepare` call on it would succeed. -/
structure Media where
  n_streams : Nat
  unprepare_ok : Bool
deriving DecidableEq, Repr

/-- A `glib::WeakRef<RTSPMedia>`; `upgrade` is `none` when the media instance
is already gone. -/
structure MediaHandle where
  upgrade : Option Media
deriving DecidableEq, Repr

/-- An `RTSPMediaFactory`: its launch pipeline string and its shared flag. -/
structure Factory where
  launch : String
  shared : Bool
deriving DecidableEq, Repr

/-- The shared application state (appstate.rs, `AppState`).
`stream_max_life_time_in_minutes` is read by
`remove_stream_if_has_no_clients` in endpoints.rs (the spec's
`STREAM_MAX_LIFETIME_IN_MINUTES`), although appstate.rs omits the field
declaration. -/
structure AppState where
  streams : List StreamInfoInternal
  mounts : List (String × Factory)
  media_map : List (String × List MediaHandle)
  rtsp_root_url : String
  stream_expiration_time_in_minutes : Int
  stream_max_life_time_in_minutes : Int
deriving DecidableEq, Repr

/-- `gst_rtsp_server` mount points: `add_factory` binds a factory at a path,
replacing any factory previously mounted there. -/
def addFactory (path : String) (f : Factory) (m : List (String × Factory)) :
    List (String × Factory) :=
  (path, f) :: m.filter (fun p => !(p.1 == path))

/-- `remove_factory`: unmounting, a no-op when the path is absent. -/
def removeFactory (path : String) (m : List (String × Factory)) :
    List (String × Factory) :=
  m.filter (fun p => !(p.1 == path))

/-- Lookup in an association list (`HashMap::get` / mounted-factory lookup). -/
def mapGet {β : Type} (m : List (String × β)) (k : String) : Option β :=
  (m.find? (fun p => p.1 == k)).map (fun p => p.2)

/-- `media_map.entry(path).or_insert_with(Vec::new)` followed by a push: the
engine's media-configure callback appending a weak handle under a path. -/
def mapEntryPush (m : List (String × List MediaHandle)) (k : String)
    (h : MediaHandle) : List (String × List MediaHandle) :=
  if m.any (fun p => p.1 == k) then
    m.map (fun p => if p.1 == k then (p.1, p.2 ++ [h]) else p)
  else
    m ++ [(k, [h])]

/-- `Duration::num_minutes`: whole minutes, truncated toward zero. -/
def numMinutes (d : Int) : Int := d.tdiv 60

/-- `DateTime::to_rfc3339`, modelled as an injective rendering. -/
def to_rfc3339 (t : Int) : String := toString t

/-- The two gst launch strings built in `add_stream_to_state`
(endpoints.rs lines 64-76). -/
def launchString (source_url : String) (down_scale : Bool) : String :=
  if down_scale then
    "rtspsrc location=" ++ source_url ++
      " latency=0 ! rtph264depay ! h264parse ! avdec_h264 ! videoscale ! video/x-raw,width=640,height=320,format=I420 ! x264enc tune=zerolatency bitrate=500 speed-preset=ultrafast key-int-max=30 ! h264parse ! rtph264pay config-interval=1 name=pay0 pt=96"
  else
    "rtspsrc location=" ++ source_url ++
      " latency=50 protocols=tcp ! rtph264depay ! h264parse config-interval=1 ! rtph264pay name=pay0 pt=96"

/-- error.rs `UserInputError` (the serde `details` value kept as a string). -/
structure UserInputError where
  status_code : Nat
  message : String
  details : String
deriving DecidableEq, Repr

/-- error.rs `InternalError`. -/
structure InternalError where
  debug_message : String
deriving DecidableEq, Repr

/-- error.rs `AppError`. -/
inductive AppError where
  | userInputError : UserInputError → AppError
  | internalError : InternalError → AppError
deriving DecidableEq, Repr

/-- endpoints.rs `AddStreamOutput`. -/
structure AddStreamOutput where
  id : String
  name : String
  url : String
  expiration_date : Option String
deriving DecidableEq, Repr

/-- endpoints.rs `AddStreamInput` (POST /streams body). -/
structure AddStreamInput where
  name : String
  source_url : String
  down_scale : Bool
  expirable : Bool
deriving DecidableEq, Repr

/-- endpoints.rs `AddStreamToStateInput`. -/
structure AddStreamToStateInput where
  id : String
  name : String
  source_url : String
  down_scale : Bool
  expirable : Bool
deriving DecidableEq, Repr

/-- endpoints.rs `AddPermanentStreamInput` (PUT /streams/{id} body). -/
structure AddPermanentStreamInput where
  name : String
  source_url : String
  down_scale : Bool
deriving DecidableEq, Repr

/-- `add_stream_to_state` (endpoints.rs lines 54-130).  `now_exp` is the
`Utc::now()` read used for the expiration date (line 105) and `now_add` the
later read stored as `added_at` (line 124).  The function builds the factory,
mounts it at `"/" ++ id`, and only then pushes the registry record; it has no
failure path. -/
def add_stream_to_state (now_exp now_add : Int) (state : AppState)
    (req : AddStreamToStateInput) : Except AppError AddStreamOutput × AppState :=
  let factory : Factory :=
    { launch := launchString req.source_url req.down_scale, shared := true }
  let id := req.id
  let path := "/" ++ id
  let url := state.rtsp_root_url ++ id
  let mounts1 := addFactory path factory state.mounts
  let expiration_date :=
    if req.expirable then
      ExpirationDate.At (now_exp + 60 * state.stream_expiration_time_in_minutes)
    else
      ExpirationDate.Never
  let output : AddStreamOutput :=
    { id := id, name := req.name, url := url,
      expiration_date :=
        match expiration_date with
        | ExpirationDate.Never => none
        | ExpirationDate.At t => some (to_rfc3339 t) }
  let entry : StreamInfoInternal :=
    { id := id, name := req.name, url := url,
      expiration_date := expiration_date, added_at := now_add }
  (Except.ok output,
    { state with mounts := mounts1, streams := state.streams ++ [entry] })

/-- The mount half of `add_stream_to_state`: everything it does to the state
up to and including the `add_factory` call (endpoints.rs lines 60-96). -/
def addMountPhase (state : AppState) (req : AddStreamToStateInput) : AppState :=
  { state with
    mounts := addFactory ("/" ++ req.id)
      { launch := launchString req.source_url req.down_scale, shared := true }
      state.mounts }

/-- The insert half of `add_stream_to_state`: the registry push performed
last (endpoints.rs line 127). -/
def addInsertPhase (now_exp now_add : Int) (state : AppState)
    (req : AddStreamToStateInput) : AppState :=
  { state with
    streams := state.streams ++
      [ { id := req.id, name := req.name, url := state.rtsp_root_url ++ req.id,
          expiration_date :=
            if req.expirable then
              ExpirationDate.At
                (now_exp + 60 * state.stream_expiration_time_in_minutes)
            else
              ExpirationDate.Never,
          added_at := now_add } ] }

/-- `add_stream` (endpoints.rs lines 132-147): the POST /streams handler,
which generates a fresh ulid for the new stream. -/
def add_stream (ulid : String) (now_exp now_add : Int) (state : AppState)
    (req : AddStreamInput) : Except AppError AddStreamOutput × AppState :=
  add_stream_to_state now_exp now_add state
    { id := ulid, name := req.name, source_url := req.source_url,
      down_scale := req.down_scale, expirable := req.expirable }

/-- The `for weak_media in medias { if let Some(media) = weak_media.upgrade()
{ media.unprepare()?; } }` loop shared by both teardown paths.  The `?`
operator returns at the first failing unprepare.  The second component is the
trace of media instances actually asked to unprepare. -/
def unprepareLoop : List MediaHandle → Except AppError Unit × List Media
  | [] => (Except.ok (), [])
  | h :: rest =>
    match h.upgrade with
    | none => unprepareLoop rest
    | some m =>
      if m.unprepare_ok then
        let r := unprepareLoop rest
        (r.1, m :: r.2)
      else
        (Except.error (AppError.internalError
          { debug_message := "error while unpreparing media" }), [m])

/-- `remove_stream_by_id` (endpoints.rs lines 223-245): retain all records
with a different id, unmount `"/" ++ id`, then run the unprepare loop over
the media handles recorded for the path (if any).  Returns the result, the
unprepare trace, and the final state. -/
def remove_stream_by_id (id : String) (state : AppState) :
    Except AppError Unit × List Media × AppState :=
  let streams1 := state.streams.filter (fun e => !(e.id == id))
  let path := "/" ++ id
  let mounts1 := removeFactory path state.mounts
  let state1 := { state with streams := streams1, mounts := mounts1 }
  match mapGet state.media_map path with
  | some medias =>
    let r := unprepareLoop medias
    (r.1, r.2, state1)
  | none => (Except.ok (), [], state1)

/-- `remove_stream` (endpoints.rs lines 247-253): the DELETE /streams/{id}
handler. -/
def remove_stream (id : String) (state : AppState) :
    Except AppError String × AppState :=
  let r := remove_stream_by_id id state
  match r.1 with
  | Except.ok _ => (Except.ok "Stream Removed", r.2.2)
  | Except.error e => (Except.error e, r.2.2)

/-- The client-counting loop of `remove_stream_if_has_no_clients`
(endpoints.rs lines 174-189): sum `n_streams` over handles that upgrade,
short-circuiting as soon as the count is positive. -/
def countClientsLoop : List MediaHandle → Nat
  | [] => 0
  | h :: rest =>
    let c := match h.upgrade with
      | some m => m.n_streams
      | none => 0
    if c > 0 then c else countClientsLoop rest

/-- `remove_stream_if_has_no_clients` (endpoints.rs lines 166-221).  The
whole body is guarded by `if let Some(medias) = medias.get(&path)`: when the
media map has no entry for the path the function does nothing and returns
`Ok(())`.  Otherwise the stream is preserved when clients are found and the
age in minutes is below `stream_max_life_time_in_minutes`; in every other
case the factory is unmounted, the record retained away, and the unprepare
loop runs. -/
def remove_stream_if_has_no_clients (id : String) (now : Int)
    (state : AppState) : Except AppError Unit × List Media × AppState :=
  let path := "/" ++ id
  match mapGet state.media_map path with
  | none => (Except.ok (), [], state)
  | some medias =>
    let found_clients := countClientsLoop medias
    match state.streams.find? (fun s => s.id == id) with
    | none => (Except.ok (), [], state)
    | some stream =>
      let minutes_until_expiration := numMinutes (now - stream.added_at)
      if found_clients > 0 ∧
          minutes_until_expiration < state.stream_max_life_time_in_minutes then
        (Except.ok (), [], state)
      else
        let state1 := { state with
          mounts := removeFactory path state.mounts,
          streams := state.streams.filter (fun e => !(e.id == id)) }
        let r := unprepareLoop medias
        (r.1, r.2, state1)

/-- The stale-id selection of `remove_stale_streams` (endpoints.rs lines
257-268), exactly as the source filters: a `Never` expiration makes the
entry stale, an `At t` entry is stale when `t ≤ now`. -/
def staleStreamIds (now : Int) (streams : List StreamInfoInternal) :
    List String :=
  (streams.filter (fun s =>
    match s.expiration_date with
    | ExpirationDate.Never => true
    | ExpirationDate.At t => t ≤ now)).map (fun s => s.id)

/-- `remove_stale_streams` (endpoints.rs lines 255-283): snapshot the stale
ids, then call `remove_stream_if_has_no_clients` on each, logging and
ignoring per-id errors. -/
def remove_stale_streams (now : Int) (state : AppState) :
    Except AppError String × AppState :=
  let ids := staleStreamIds now state.streams
  let final := ids.foldl
    (fun st i => (remove_stream_if_has_no_clients i now st).2.2) state
  (Except.ok "Stale streams removed", final)

/-- `put_permanent_stream` (endpoints.rs lines 149-164): build the internal
input with `expirable = false`, remove the id first (propagating a removal
error), then add. -/
def put_permanent_stream (id : String) (req : AddPermanentStreamInput)
    (now_exp now_add : Int) (state : AppState) :
    Except AppError AddStreamOutput × AppState :=
  let input : AddStreamToStateInput :=
    { id := id, name := req.name, source_url := req.source_url,
      down_scale := req.down_scale, expirable := false }
  let r := remove_stream_by_id input.id state
  match r.1 with
  | Except.error e => (Except.error e, r.2.2)
  | Except.ok _ => add_stream_to_state now_exp now_add r.2.2 input

/-- The engine's media-configure callback registered in
`add_stream_to_state` (endpoints.rs lines 84-89): append a weak handle under
the mount path. -/
def mediaConfigure (path : String) (h : MediaHandle) (state : AppState) :
    AppState :=
  { state with media_map := mapEntryPush state.media_map path h }

/-- HTTP methods used by the router. -/
inductive HttpMethod where
  | post : HttpMethod
  | get : HttpMethod
  | delete : HttpMethod
  | put : HttpMethod
deriving DecidableEq, Repr

/-- The handler functions of endpoints.rs that a route could bind. -/
inductive RouteHandler where
  | addStream : RouteHandler
  | listStreams : RouteHandler
  | removeStream : RouteHandler
  | removeStaleStreams : RouteHandler
  | putPermanentStream : RouteHandler
deriving DecidableEq, Repr

/-- The router built in `setup_and_run` (setup.rs lines 153-158): the
complete list of registered routes. -/
def appRoutes : List (HttpMethod × String × RouteHandler) :=
  [ (HttpMethod.post, "/streams", RouteHandler.addStream),
    (HttpMethod.get, "/streams", RouteHandler.listStreams),
    (HttpMethod.delete, "/streams/{id}", RouteHandler.removeStream),
    (HttpMethod.delete, "/streams/stale", RouteHandler.removeStaleStreams) ]

/-- All media handles recorded under `path` upgrade to instances whose
unprepare succeeds (vacuously true when the path has no entry or a handle is
already dead).  Under this condition the teardown loops cannot fail. -/
def noFailingUpgrade (s : AppState) (path : String) : Bool :=
  match mapGet s.media_map path with
  | none => true
  | some ms => ms.all (fun hd =>
      match hd.upgrade with
      | none => true
      | some m => m.unprepare_ok)

/-- Prefixing with "/" is injective: two ids mounting to the same path are
equal. -/
theorem slash_append_inj {a b : String} (h : ("/" ++ a) = ("/" ++ b)) :
    a = b := by
  have h2 : ("/" ++ a).data = ("/" ++ b).data := by rw [h]
  simp [String.data_append] at h2
  exact String.ext h2

/-- The unprepare trace: the upgraded media in order, up to and including the
first whose unprepare fails. -/
theorem unprepareLoop_trace (l : List MediaHandle) :
    (unprepareLoop l).2 =
      ((l.filterMap (fun h => h.upgrade)).takeWhile (fun m => m.unprepare_ok))
        ++ (((l.filterMap (fun h => h.upgrade)).dropWhile
              (fun m => m.unprepare_ok)).take 1) := by
  induction l with
  | nil => rfl
  | cons h t ih =>
    cases hu : h.upgrade with
    | none => simpa [unprepareLoop, hu] using ih
    | some m =>
      by_cases hm : m.unprepare_ok
      · simp [unprepareLoop, hu, hm, List.takeWhile_cons, List.dropWhile_cons,
          ih]
      · simp [unprepareLoop, hu, hm, List.takeWhile_cons, List.dropWhile_cons]

/-- The unprepare loop succeeds exactly when every upgraded media instance
unprepares successfully. -/
theorem unprepareLoop_isOk (l : List MediaHandle) :
    (unprepareLoop l).1 = Except.ok () ↔
      (l.filterMap (fun h => h.upgrade)).all (fun m => m.unprepare_ok) = true := by
  induction l with
  | nil => simp [unprepareLoop]
  | cons h t ih =>
    cases hu : h.upgrade with
    | none => simpa [unprepareLoop, hu] using ih
    | some m =>
      by_cases hm : m.unprepare_ok
      · simpa [unprepareLoop, hu, hm] using ih
      · simp [unprepareLoop, hu, hm]

/-- The state produced by `remove_stream_by_id`, independent of the media
map contents: retain the other ids and unmount the path. -/
theorem remove_stream_by_id_state (id : String) (s : AppState) :
    (remove_stream_by_id id s).2.2 =
      { s with streams := s.streams.filter (fun e => !(e.id == id)),
               mounts := removeFactory ("/" ++ id) s.mounts } := by
  simp only [remove_stream_by_id]
  split <;> rfl

/-- `remove_stream_by_id` succeeds whenever no recorded handle for the path
upgrades to a failing media instance. -/
theorem remove_stream_by_id_ok (id : String) (s : AppState)
    (h : noFailingUpgrade s ("/" ++ id) = true) :
    (remove_stream_by_id id s).1 = Except.ok () := by
  unfold noFailingUpgrade at h
  simp only [remove_stream_by_id]
  cases hm : mapGet s.media_map ("/" ++ id) with
  | none => simp [hm]
  | some ms =>
    rw [hm] at h
    simp only [hm]
    rw [unprepareLoop_isOk]
    rw [List.all_eq_true] at h ⊢
    intro m hmem
    rcases List.mem_filterMap.mp hmem with ⟨hd, hhd, hup⟩
    have := h hd hhd
    rw [hup] at this
    exact this

/-- Neither teardown nor add ever touches the media map. -/
theorem remove_stream_by_id_media_map (id : String) (s : AppState) :
    (remove_stream_by_id id s).2.2.media_map = s.media_map := by
  rw [remove_stream_by_id_state]

/-- `add_stream_to_state` leaves the media map unchanged. -/
theorem add_stream_to_state_media_map (t1 t2 : Int) (s : AppState)
    (req : AddStreamToStateInput) :
    (add_stream_to_state t1 t2 s req).2.media_map = s.media_map := rfl

/-- Invariant I1 (mount-correspondence): every registered id has a factory
mounted at `"/" ++ id`, and every mounted path is `"/" ++ id` for some
registered id — i.e. the registry ids equal the mount paths stripped of the
leading "/". -/
def I1 (s : AppState) : Prop :=
  (∀ e ∈ s.streams, ∃ p ∈ s.mounts, p.1 = "/" ++ e.id) ∧
  (∀ p ∈ s.mounts, ∃ e ∈ s.streams, "/" ++ e.id = p.1)

/-- Appending a record for id `e.id` while mounting a factory at
`"/" ++ e.id` preserves I1. -/
theorem I1_insert (s : AppState) (hs : I1 s) (e : StreamInfoInternal)
    (f : Factory) :
    I1 { s with streams := s.streams ++ [e],
                mounts := addFactory ("/" ++ e.id) f s.mounts } := by
  obtain ⟨hsm, hms⟩ := hs
  constructor
  · intro x hx
    rcases List.mem_append.mp hx with hx | hx
    · obtain ⟨p, hp, hpe⟩ := hsm x hx
      by_cases hcase : p.1 = "/" ++ e.id
      · exact ⟨("/" ++ e.id, f), List.mem_cons_self _ _, hcase ▸ hpe⟩
      · refine ⟨p, List.mem_cons_of_mem _ (List.mem_filter.mpr ⟨hp, ?_⟩), hpe⟩
        simpa using hcase
    · have hx' : x = e := List.mem_singleton.mp hx
      subst hx'
      exact ⟨("/" ++ x.id, f), List.mem_cons_self _ _, rfl⟩
  · intro p hp
    rcases List.mem_cons.mp hp with hp | hp
    · subst hp
      exact ⟨e, List.mem_append_right _ (List.mem_singleton.mpr rfl), rfl⟩
    · obtain ⟨x, hx, hxe⟩ := hms p (List.mem_filter.mp hp).1
      exact ⟨x, List.mem_append_left _ hx, hxe⟩

/-- Filtering the id out of the registry while unmounting `"/" ++ id`
preserves I1. -/
theorem I1_erase (s : AppState) (hs : I1 s) (id : String) :
    I1 { s with streams := s.streams.filter (fun e => !(e.id == id)),
                mounts := removeFactory ("/" ++ id) s.mounts } := by
  obtain ⟨hsm, hms⟩ := hs
  constructor
  · intro x hx
    have hx' := List.mem_filter.mp hx
    have hxid : x.id ≠ id := by simpa using hx'.2
    obtain ⟨p, hp, hpe⟩ := hsm x hx'.1
    refine ⟨p, List.mem_filter.mpr ⟨hp, ?_⟩, hpe⟩
    have : p.1 ≠ "/" ++ id := by
      rw [hpe]
      intro hcontra
      exact hxid (slash_append_inj hcontra)
    simpa using this
  · intro p hp
    have hp' := List.mem_filter.mp hp
    have hpath : p.1 ≠ "/" ++ id := by simpa using hp'.2
    obtain ⟨x, hx, hxe⟩ := hms p hp'.1
    refine ⟨x, List.mem_filter.mpr ⟨hx, ?_⟩, hxe⟩
    have : x.id ≠ id := by
      intro hcontra
      exact hpath (by rw [← hxe, hcontra])
    simpa using this

/-- `add_stream_to_state` preserves I1. -/
theorem I1_add (t1 t2 : Int) (s : AppState) (req : AddStreamToStateInput)
    (hs : I1 s) : I1 (add_stream_to_state t1 t2 s req).2 :=
  I1_insert s hs
    { id := req.id, name := req.name, url := s.rtsp_root_url ++ req.id,
      expiration_date :=
        if req.expirable then
          ExpirationDate.At (t1 + 60 * s.stream_expiration_time_in_minutes)
        else
          ExpirationDate.Never,
      added_at := t2 }
    { launch := launchString req.source_url req.down_scale, shared := true }

/-- `remove_stream_by_id` preserves I1. -/
theorem I1_remove (id : String) (s : AppState) (hs : I1 s) :
    I1 (remove_stream_by_id id s).2.2 := by
  rw [remove_stream_by_id_state]
  exact I1_erase s hs id

/-- The state returned by `remove_stream` is that of `remove_stream_by_id`. -/
theorem remove_stream_state (id : String) (s : AppState) :
    (remove_stream id s).2 = (remove_stream_by_id id s).2.2 := by
  simp only [remove_stream]
  split <;> rfl

/-- `remove_stream_if_has_no_clients` either leaves the state untouched or
performs exactly the registry-filter plus unmount of `remove_stream_by_id`. -/
theorem if_no_clients_state (id : String) (now : Int) (s : AppState) :
    (remove_stream_if_has_no_clients id now s).2.2 = s ∨
    (remove_stream_if_has_no_clients id now s).2.2 =
      { s with streams := s.streams.filter (fun e => !(e.id == id)),
               mounts := removeFactory ("/" ++ id) s.mounts } := by
  simp only [remove_stream_if_has_no_clients]
  split
  · exact Or.inl rfl
  · split
    · exact Or.inl rfl
    · split
      · exact Or.inl rfl
      · exact Or.inr rfl

/-- `remove_stream_if_has_no_clients` preserves I1. -/
theorem I1_if_no_clients (id : String) (now : Int) (s : AppState)
    (hs : I1 s) : I1 (remove_stream_if_has_no_clients id now s).2.2 := by
  rcases if_no_clients_state id now s with h | h
  · rw [h]; exact hs
  · rw [h]; exact I1_erase s hs id

/-- Folding the conditional teardown over any id list preserves I1. -/
theorem I1_foldl (now : Int) (ids : List String) (s : AppState) (hs : I1 s) :
    I1 (ids.foldl
      (fun st i => (remove_stream_if_has_no_clients i now st).2.2) s) := by
  induction ids generalizing s with
  | nil => exact hs
  | cons i t ih => exact ih _ (I1_if_no_clients i now s hs)

/-- `remove_stale_streams` preserves I1. -/
theorem I1_sweep (now : Int) (s : AppState) (hs : I1 s) :
    I1 (remove_stale_streams now s).2 :=
  I1_foldl now (staleStreamIds now s.streams) s hs

/-- `put_permanent_stream` preserves I1 (both on the error path, where only
the removal happened, and on the success path). -/
theorem I1_put (id : String) (r : AddPermanentStreamInput) (t1 t2 : Int)
    (s : AppState) (hs : I1 s) : I1 (put_permanent_stream id r t1 t2 s).2 := by
  simp only [put_permanent_stream]
  split
  · exact I1_remove id s hs
  · exact I1_add t1 t2 _ _ (I1_remove id s hs)

/-- The engine's media-configure callback preserves I1 (it only touches the
media map). -/
theorem I1_mediaConfigure (path : String) (h : MediaHandle) (s : AppState)
    (hs : I1 s) : I1 (mediaConfigure path h s) := hs

/-- Per-record expiration consistency: an `At t` record has `added_at ≤ t`. -/
def expOk (e : StreamInfoInternal) : Bool :=
  match e.expiration_date with
  | ExpirationDate.Never => true
  | ExpirationDate.At t => e.added_at ≤ t

/-- Invariant I4-style consistency over the whole registry. -/
def ExpInv (s : AppState) : Prop := ∀ e ∈ s.streams, expOk e = true

/-- The registry after `add_stream_to_state`: the old records with the new
one pushed at the end. -/
theorem add_stream_to_state_streams (t1 t2 : Int) (s : AppState)
    (req : AddStreamToStateInput) :
    (add_stream_to_state t1 t2 s req).2.streams = s.streams ++
      [ { id := req.id, name := req.name, url := s.rtsp_root_url ++ req.id,
          expiration_date :=
            if req.expirable then
              ExpirationDate.At (t1 + 60 * s.stream_expiration_time_in_minutes)
            else
              ExpirationDate.Never,
          added_at := t2 } ] := rfl

/-- The mounts after `add_stream_to_state`: the new factory bound at
`"/" ++ id`. -/
theorem add_stream_to_state_mounts (t1 t2 : Int) (s : AppState)
    (req : AddStreamToStateInput) :
    (add_stream_to_state t1 t2 s req).2.mounts =
      addFactory ("/" ++ req.id)
        { launch := launchString req.source_url req.down_scale, shared := true }
        s.mounts := rfl

/-- `add_stream_to_state` does not change the configured root url. -/
theorem add_stream_to_state_root (t1 t2 : Int) (s : AppState)
    (req : AddStreamToStateInput) :
    (add_stream_to_state t1 t2 s req).2.rtsp_root_url = s.rtsp_root_url := rfl

/-- `remove_stream_by_id` does not change the configured root url. -/
theorem remove_stream_by_id_root (id : String) (s : AppState) :
    (remove_stream_by_id id s).2.2.rtsp_root_url = s.rtsp_root_url := by
  rw [remove_stream_by_id_state]

/-- `noFailingUpgrade` depends only on the media map. -/
theorem noFailingUpgrade_congr {s s' : AppState} (path : String)
    (hmm : s'.media_map = s.media_map) :
    noFailingUpgrade s' path = noFailingUpgrade s path := by
  unfold noFailingUpgrade
  rw [hmm]

/-- A factory just bound by `add_factory` is what a lookup at its path
returns. -/
theorem mapGet_addFactory (path : String) (f : Factory)
    (m : List (String × Factory)) :
    mapGet (addFactory path f m) path = some f := by
  simp [mapGet, addFactory]

/-- After `remove_factory path`, no mount is left at `path`. -/
theorem removeFactory_all (path : String) (m : List (String × Factory)) :
    (removeFactory path m).all (fun p => !(p.1 == path)) = true := by
  rw [List.all_eq_true]
  intro p hp
  exact (List.mem_filter.mp hp).2

/-- `add_stream_to_state` preserves expiration consistency, provided the
`added_at` clock read does not exceed the expiration clock read by more than
the configured ttl. -/
theorem ExpInv_add (t1 t2 : Int) (s : AppState) (req : AddStreamToStateInput)
    (hs : ExpInv s)
    (hadd : req.expirable = true →
      t2 ≤ t1 + 60 * s.stream_expiration_time_in_minutes) :
    ExpInv (add_stream_to_state t1 t2 s req).2 := by
  intro e he
  rw [add_stream_to_state_streams] at he
  rcases List.mem_append.mp he with he | he
  · exact hs e he
  · have he' := List.mem_singleton.mp he
    subst he'
    unfold expOk
    cases hreq : req.expirable with
    | false => simp [hreq]
    | true => simpa [hreq] using hadd hreq

/-- `remove_stream_by_id` preserves expiration consistency. -/
theorem ExpInv_remove (id : String) (s : AppState) (hs : ExpInv s) :
    ExpInv (remove_stream_by_id id s).2.2 := by
  rw [remove_stream_by_id_state]
  intro e he
  exact hs e (List.mem_filter.mp he).1

/-- `remove_stream_if_has_no_clients` preserves expiration consistency. -/
theorem ExpInv_if_no_clients (id : String) (now : Int) (s : AppState)
    (hs : ExpInv s) : ExpInv (remove_stream_if_has_no_clients id now s).2.2 := by
  rcases if_no_clients_state id now s with h | h
  · rw [h]; exact hs
  · rw [h]
    intro e he
    exact hs e (List.mem_filter.mp he).1

/-- Folding the conditional teardown preserves expiration consistency. -/
theorem ExpInv_foldl (now : Int) (ids : List String) (s : AppState)
    (hs : ExpInv s) :
    ExpInv (ids.foldl
      (fun st i => (remove_stream_if_has_no_clients i now st).2.2) s) := by
  induction ids generalizing s with
  | nil => exact hs
  | cons i t ih => exact ih _ (ExpInv_if_no_clients i now s hs)

/-- `remove_stale_streams` preserves expiration consistency. -/
theorem ExpInv_sweep (now : Int) (s : AppState) (hs : ExpInv s) :
    ExpInv (remove_stale_streams now s).2 :=
  ExpInv_foldl now (staleStreamIds now s.streams) s hs

/-- `put_permanent_stream` preserves expiration consistency unconditionally:
its new record carries `expiration = Never`. -/
theorem ExpInv_put (id : String) (r : AddPermanentStreamInput) (t1 t2 : Int)
    (s : AppState) (hs : ExpInv s) :
    ExpInv (put_permanent_stream id r t1 t2 s).2 := by
  simp only [put_permanent_stream]
  split
  · exact ExpInv_remove id s hs
  · exact ExpInv_add t1 t2 _ _ (ExpInv_remove id s hs) (fun hcontra => by simp at hcontra)

/-- The media-configure callback preserves expiration consistency. -/
theorem ExpInv_mediaConfigure (path : String) (h : MediaHandle) (s : AppState)
    (hs : ExpInv s) : ExpInv (mediaConfigure path h s) := hs

/-- `expOk` unfolded to the invariant's phrasing. -/
theorem expOk_iff (e : StreamInfoInternal) :
    expOk e = true ↔
      ∀ t, e.expiration_date = ExpirationDate.At t → e.added_at ≤ t := by
  unfold expOk
  cases hexp : e.expiration_date with
  | Never => simp
  | At t => simp

instance (s : AppState) : Decidable (I1 s) := by
  unfold I1
  infer_instance

instance (s : AppState) : Decidable (ExpInv s) := by
  unfold ExpInv
  infer_instance

/-- The registry after `remove_stream_by_id`. -/
theorem remove_stream_by_id_streams (id : String) (s : AppState) :
    (remove_stream_by_id id s).2.2.streams =
      s.streams.filter (fun e => !(e.id == id)) := by
  rw [remove_stream_by_id_state]

/-- The mounts after `remove_stream_by_id`. -/
theorem remove_stream_by_id_mounts (id : String) (s : AppState) :
    (remove_stream_by_id id s).2.2.mounts =
      removeFactory ("/" ++ id) s.mounts := by
  rw [remove_stream_by_id_state]

/-- A permanent registry record (as `put_permanent` would create). -/
def p1 : StreamInfoInternal :=
  { id := "p1", name := "cam-p1", url := "rtsp://u:p@h:8554/p1",
    expiration_date := ExpirationDate.Never, added_at := 0 }

/-- An expirable record that is not yet expired at `now = 0`. -/
def e2 : StreamInfoInternal :=
  { id := "e2", name := "cam-e2", url := "rtsp://u:p@h:8554/e2",
    expiration_date := ExpirationDate.At 100, added_at := 0 }

/-- A state holding the permanent `p1` (whose media-map entry has no live
client) and the unexpired expirable `e2`. -/
def sC1 : AppState :=
  { streams := [p1, e2],
    mounts := [("/p1", { launch := "lp", shared := true }),
               ("/e2", { launch := "le", shared := true })],
    media_map := [("/p1", [])],
    rtsp_root_url := "rtsp://u:p@h:8554/",
    stream_expiration_time_in_minutes := 5,
    stream_max_life_time_in_minutes := 60 }

/-- C1: evaluation of the sweeper on `sC1`.  The selection filter of
`remove_stale_streams` (whose `Never` match arm yields `true`) selects the
permanent stream `p1` for conditional removal, and the sweep then tears it
down — registry entry and mount both gone — while the unexpired `At`
stream `e2` survives.  The claim (and spec invariant I5) says a `Never`
stream is never selected. -/
theorem c1_sweeper_selects_never :
    staleStreamIds 0 sC1.streams = ["p1"] ∧
    (remove_stale_streams 0 sC1).2.streams = [e2] ∧
    (remove_stale_streams 0 sC1).2.mounts =
      [("/e2", { launch := "le", shared := true })] := by
  decide

/-- An expirable record long expired at `now = 0` (age 20 minutes). -/
def e1 : StreamInfoInternal :=
  { id := "e1", name := "cam-e1", url := "rtsp://u:p@h:8554/e1",
    expiration_date := ExpirationDate.At (-600), added_at := -1200 }

/-- A state holding the expired `e1`, mounted, with no media-map entry for
its path (no client ever connected). -/
def sC2 : AppState :=
  { streams := [e1],
    mounts := [("/e1", { launch := "l1", shared := true })],
    media_map := [],
    rtsp_root_url := "rtsp://u:p@h:8554/",
    stream_expiration_time_in_minutes := 5,
    stream_max_life_time_in_minutes := 60 }

/-- C2: evaluation of `remove_stream_if_has_no_clients` on an id present in
the registry whose path has no media-map entry: zero clients and age 20
minutes < max lifetime 60, so the claim requires the teardown of
remove(id); the code's `if let Some(medias)` guard instead returns success
with the state — registry entry and mount included — completely
unchanged. -/
theorem c2_no_media_entry_preserves :
    remove_stream_if_has_no_clients "e1" 0 sC2 = (Except.ok (), [], sC2) := by
  rfl

/-- C4: the router built at startup (`setup_and_run`) registers no PUT
route at all, and no route is bound to the `put_permanent_stream` handler:
PUT /streams/{id} is not part of the served HTTP surface. -/
theorem c4_router_has_no_put :
    appRoutes.all (fun r => !(r.1 == HttpMethod.put)) = true ∧
    appRoutes.all (fun r => !(r.2.2 == RouteHandler.putPermanentStream)) = true := by
  decide

/-- An empty state with a benign configuration, used as a concrete input. -/
def sW : AppState :=
  { streams := [], mounts := [], media_map := [],
    rtsp_root_url := "rtsp://u:p@h:8554/",
    stream_expiration_time_in_minutes := 5,
    stream_max_life_time_in_minutes := 60 }

/-- A concrete expirable add request. -/
def reqW : AddStreamToStateInput :=
  { id := "w1", name := "w", source_url := "rtsp://up/w",
    down_scale := false, expirable := true }

/-- C7: I1 (mount-correspondence: registry ids equal mount paths stripped
of the leading "/") is preserved by every completed operation — add, put,
both teardowns, the sweep and the engine's media-configure callback — and
within an add the registry insert strictly follows the mount:
`add_stream_to_state` factors as the insert phase applied after the mount
phase, and the mount phase leaves the registry untouched, so an add
interrupted before its insert leaves the registry unchanged. -/
theorem c7_mount_correspondence (t1 t2 now : Int) (s : AppState)
    (req : AddStreamToStateInput) (id pathh : String)
    (r : AddPermanentStreamInput) (hd : MediaHandle)
    (hs : I1 s) :
    I1 (add_stream_to_state t1 t2 s req).2 ∧
    I1 (put_permanent_stream id r t1 t2 s).2 ∧
    I1 (remove_stream_by_id id s).2.2 ∧
    I1 (remove_stream id s).2 ∧
    I1 (remove_stream_if_has_no_clients id now s).2.2 ∧
    I1 (remove_stale_streams now s).2 ∧
    I1 (mediaConfigure pathh hd s) ∧
    (add_stream_to_state t1 t2 s req).2 =
      addInsertPhase t1 t2 (addMountPhase s req) req ∧
    (addMountPhase s req).streams = s.streams := by
  refine ⟨I1_add t1 t2 s req hs, I1_put id r t1 t2 s hs, I1_remove id s hs,
    ?_, I1_if_no_clients id now s hs, I1_sweep now s hs,
    I1_mediaConfigure pathh hd s hs, rfl, rfl⟩
  rw [remove_stream_state]
  exact I1_remove id s hs

/-- Witness for C7: I1 holds of the empty state and is preserved by a
concrete add. -/
theorem c7_witness :
    I1 sW ∧ I1 (add_stream_to_state 0 0 sW reqW).2 :=
  ⟨by decide,
    (c7_mount_correspondence 0 0 0 sW reqW "x" "/x"
      { name := "n", source_url := "u", down_scale := false }
      { upgrade := none } (by decide)).1⟩

/-- A state whose configured expirable ttl is -1 minutes (the environment
value is a plain i64 and is never validated). -/
def sC8 : AppState :=
  { streams := [], mounts := [], media_map := [],
    rtsp_root_url := "rtsp://u:p@h:8554/",
    stream_expiration_time_in_minutes := -1,
    stream_max_life_time_in_minutes := 60 }

/-- C8 counterexample: with ttl = -1 minutes, `add_stream_to_state` at
clock reads (0, 0) inserts a record with `expiration = At (-60)` and
`added_at = 0`, violating `added_at ≤ t`.  The same failure occurs for any
ttl smaller than the delay between the source's two separate `Utc::now()`
reads (expiration at line 105, `added_at` at line 124 of endpoints.rs). -/
theorem c8_counterexample :
    ¬ ExpInv (add_stream_to_state 0 0 sC8
      { id := "e1", name := "cam", source_url := "rtsp://up/1",
        down_scale := false, expirable := true }).2 := by
  decide

/-- C8 (amended): provided the `added_at` clock read `t2` does not exceed
`t1 + 60·ttl` (in particular whenever the configured ttl is nonnegative and
the two clock reads coincide), every completed operation preserves the
invariant that a registry entry with `expiration = At t` has
`added_at ≤ t`; in particular every entry present right after an
`add_stream_to_state` satisfies it. -/
theorem c8_expiration_consistency (t1 t2 now : Int) (s : AppState)
    (req : AddStreamToStateInput) (id pathh : String)
    (r : AddPermanentStreamInput) (hd : MediaHandle)
    (hs : ExpInv s)
    (hadd : t2 ≤ t1 + 60 * s.stream_expiration_time_in_minutes) :
    ExpInv (add_stream_to_state t1 t2 s req).2 ∧
    ExpInv (put_permanent_stream id r t1 t2 s).2 ∧
    ExpInv (remove_stream_by_id id s).2.2 ∧
    ExpInv (remove_stream id s).2 ∧
    ExpInv (remove_stream_if_has_no_clients id now s).2.2 ∧
    ExpInv (remove_stale_streams now s).2 ∧
    ExpInv (mediaConfigure pathh hd s) ∧
    (∀ e ∈ (add_stream_to_state t1 t2 s req).2.streams, ∀ t,
      e.expiration_date = ExpirationDate.At t → e.added_at ≤ t) := by
  have hinvadd := ExpInv_add t1 t2 s req hs (fun _ => hadd)
  refine ⟨hinvadd, ExpInv_put id r t1 t2 s hs, ExpInv_remove id s hs, ?_,
    ExpInv_if_no_clients id now s hs, ExpInv_sweep now s hs,
    ExpInv_mediaConfigure pathh hd s hs, ?_⟩
  · rw [remove_stream_state]
    exact ExpInv_remove id s hs
  · intro e he t ht
    exact (expOk_iff e).mp (hinvadd e he) t ht

/-- Witness for C8: a nonnegative ttl with coinciding clock reads satisfies
the hypothesis, and the invariant holds after the concrete add. -/
theorem c8_witness :
    ((0 : Int) ≤ 0 + 60 * sW.stream_expiration_time_in_minutes) ∧
    ExpInv (add_stream_to_state 0 0 sW reqW).2 :=
  ⟨by decide,
    (c8_expiration_consistency 0 0 0 sW reqW "x" "/x"
      { name := "n", source_url := "u", down_scale := false }
      { upgrade := none } (by decide) (by decide)).1⟩

/-- C10: `add_stream_to_state` is infallible — it returns `Ok` for every
input and state, with no validation of name or source_url and no failure
path in the mount — and so is the POST /streams handler `add_stream`; the
returned `expiration_date` is `Some` exactly when the request set
`expirable`. -/
theorem c10_add_infallible (t1 t2 : Int) (s : AppState)
    (req : AddStreamToStateInput) (ulid : String) (rq : AddStreamInput) :
    (∃ out, (add_stream_to_state t1 t2 s req).1 = Except.ok out ∧
      (out.expiration_date.isSome ↔ req.expirable = true)) ∧
    (∃ out, (add_stream ulid t1 t2 s rq).1 = Except.ok out ∧
      (out.expiration_date.isSome ↔ rq.expirable = true)) := by
  constructor
  · refine ⟨_, rfl, ?_⟩
    cases hreq : req.expirable <;> simp [add_stream_to_state, hreq]
  · refine ⟨_, rfl, ?_⟩
    cases hrq : rq.expirable <;> simp [add_stream, add_stream_to_state, hrq]

/-- A media instance whose unprepare fails with an engine error. -/
def mFail : Media := { n_streams := 1, unprepare_ok := false }

/-- A healthy media instance. -/
def mOk : Media := { n_streams := 2, unprepare_ok := true }

/-- A state registering "x" whose path holds two upgradeable handles, the
first failing unprepare, the second healthy. -/
def sC3 : AppState :=
  { streams := [ { id := "x", name := "x", url := "rtsp://u:p@h:8554/x",
                   expiration_date := ExpirationDate.Never, added_at := 0 } ],
    mounts := [("/x", { launch := "lx", shared := true })],
    media_map := [("/x",
      [ { upgrade := some mFail }, { upgrade := some mOk } ])],
    rtsp_root_url := "rtsp://u:p@h:8554/",
    stream_expiration_time_in_minutes := 5,
    stream_max_life_time_in_minutes := 60 }

/-- C3 counterexample: during remove("x") on `sC3` the first handle's
unprepare fails, the failure is returned as the error — but the iteration
stops there: the remaining upgradeable handle (`mOk`) is never asked to
unprepare, contrary to the claim that iteration continues over the
remaining handles. -/
theorem c3_counterexample :
    (remove_stream_by_id "x" sC3).1 =
      Except.error (AppError.internalError
        { debug_message := "error while unpreparing media" }) ∧
    (remove_stream_by_id "x" sC3).2.1 = [mFail] ∧
    mOk ∉ (remove_stream_by_id "x" sC3).2.1 :=
  ⟨rfl, rfl, by decide⟩

/-- C3 (amended): during remove(id) the upgradeable handles for the path
are asked to unprepare in order only up to and including the first whose
unprepare fails; that first failure is returned as the error and aborts the
iteration over the remaining handles, while the registry deletion and the
unmount of "/" ++ id have already been performed, so the removal of the
entry itself is not undone. -/
theorem c3_unprepare_first_failure (id : String) (s : AppState)
    (medias : List MediaHandle)
    (h : mapGet s.media_map ("/" ++ id) = some medias) :
    (remove_stream_by_id id s).2.1 =
      ((medias.filterMap (fun hd => hd.upgrade)).takeWhile
        (fun m => m.unprepare_ok)) ++
      (((medias.filterMap (fun hd => hd.upgrade)).dropWhile
        (fun m => m.unprepare_ok)).take 1) ∧
    ((remove_stream_by_id id s).1 = Except.ok () ↔
      (medias.filterMap (fun hd => hd.upgrade)).all
        (fun m => m.unprepare_ok) = true) ∧
    (remove_stream_by_id id s).2.2.streams =
      s.streams.filter (fun e => !(e.id == id)) ∧
    (remove_stream_by_id id s).2.2.mounts =
      removeFactory ("/" ++ id) s.mounts := by
  have htrace : (remove_stream_by_id id s).2.1 = (unprepareLoop medias).2 := by
    simp only [remove_stream_by_id, h]
  have hres : (remove_stream_by_id id s).1 = (unprepareLoop medias).1 := by
    simp only [remove_stream_by_id, h]
  refine ⟨?_, ?_, remove_stream_by_id_streams id s, remove_stream_by_id_mounts id s⟩
  · rw [htrace]
    exact unprepareLoop_trace medias
  · rw [hres]
    exact unprepareLoop_isOk medias

/-- Witness for C3: the amended theorem applied at `sC3`. -/
theorem c3_witness :
    mapGet sC3.media_map ("/" ++ "x") =
      some [ { upgrade := some mFail }, { upgrade := some mOk } ] ∧
    (remove_stream_by_id "x" sC3).2.2.streams =
      sC3.streams.filter (fun e => !(e.id == "x")) :=
  ⟨rfl, (c3_unprepare_first_failure "x" sC3
      [ { upgrade := some mFail }, { upgrade := some mOk } ] rfl).2.2.1⟩

/-- A state where "ghost" was never registered, but a stale media-map entry
under "/ghost" still upgrades to an instance whose unprepare fails (handles
of a removed mount are not auto-cleaned and may still upgrade briefly). -/
def sC6 : AppState :=
  { streams := [],
    mounts := [],
    media_map := [("/ghost", [ { upgrade := some mFail } ])],
    rtsp_root_url := "rtsp://u:p@h:8554/",
    stream_expiration_time_in_minutes := 5,
    stream_max_life_time_in_minutes := 60 }

/-- C6 counterexample: "ghost" is not in the registry, yet DELETE does not
return "Stream Removed": the teardown loop hits the failing unprepare of
the stale handle recorded under "/ghost" and the handler returns an
internal error. -/
theorem c6_counterexample :
    sC6.streams = [] ∧
    (remove_stream "ghost" sC6).1 =
      Except.error (AppError.internalError
        { debug_message := "error while unpreparing media" }) :=
  ⟨rfl, rfl⟩

/-- When the underlying teardown succeeds, the DELETE handler answers
"Stream Removed". -/
theorem remove_stream_ok (id : String) (s : AppState)
    (h : (remove_stream_by_id id s).1 = Except.ok ()) :
    (remove_stream id s).1 = Except.ok "Stream Removed" := by
  simp [remove_stream, h]

/-- The teardown state is a fixed point: removing the same id twice yields
the state of a single removal (the registry filter, the unmount and the
untouched media map are all idempotent). -/
theorem remove_state_idem (id : String) (s : AppState) :
    (remove_stream_by_id id ((remove_stream_by_id id s).2.2)).2.2 =
      (remove_stream_by_id id s).2.2 := by
  have hstr : ∀ (l : List StreamInfoInternal),
      (l.filter (fun e => !(e.id == id))).filter (fun e => !(e.id == id)) =
        l.filter (fun e => !(e.id == id)) :=
    fun l => List.filter_eq_self.mpr (fun a ha => (List.mem_filter.mp ha).2)
  have hmnt : ∀ (l : List (String × Factory)),
      removeFactory ("/" ++ id) (removeFactory ("/" ++ id) l) =
        removeFactory ("/" ++ id) l :=
    fun l => List.filter_eq_self.mpr (fun a ha => (List.mem_filter.mp ha).2)
  rw [remove_stream_by_id_state, remove_stream_by_id_state]
  simp only [hstr, hmnt]

/-- C6 (amended): when every upgradeable handle recorded under "/" ++ id
unprepares successfully (in particular when the media map has no entry at
that path), remove(id) on an id absent from the registry returns
"Stream Removed" and leaves the registry unchanged; and for any state under
the same proviso remove is idempotent: the state after remove;remove equals
the state after a single remove and the second call also succeeds. -/
theorem c6_remove_idempotent (id : String) (s : AppState)
    (h2 : noFailingUpgrade s ("/" ++ id) = true) :
    (s.streams.all (fun e => !(e.id == id)) = true →
      (remove_stream id s).1 = Except.ok "Stream Removed" ∧
      (remove_stream id s).2.streams = s.streams) ∧
    (remove_stream id ((remove_stream id s).2)).2 = (remove_stream id s).2 ∧
    (remove_stream id ((remove_stream id s).2)).1 =
      Except.ok "Stream Removed" := by
  have hok : (remove_stream_by_id id s).1 = Except.ok () :=
    remove_stream_by_id_ok id s h2
  have hmm : ((remove_stream id s).2).media_map = s.media_map := by
    rw [remove_stream_state, remove_stream_by_id_media_map]
  have h2' : noFailingUpgrade ((remove_stream id s).2) ("/" ++ id) = true := by
    rw [noFailingUpgrade_congr ("/" ++ id) hmm]
    exact h2
  have hok2 : (remove_stream_by_id id ((remove_stream id s).2)).1 =
      Except.ok () := remove_stream_by_id_ok id _ h2'
  refine ⟨fun h1 => ⟨remove_stream_ok id s hok, ?_⟩, ?_,
    remove_stream_ok id _ hok2⟩
  · rw [remove_stream_state, remove_stream_by_id_streams]
    exact List.filter_eq_self.mpr (List.all_eq_true.mp h1)
  · rw [remove_stream_state, remove_stream_state]
    exact remove_state_idem id s

/-- Witness for C6: the amended theorem applied at the empty state for an
id that was never registered. -/
theorem c6_witness :
    noFailingUpgrade sW ("/" ++ "ghost") = true ∧
    (remove_stream "ghost" ((remove_stream "ghost" sW).2)).2 =
      (remove_stream "ghost" sW).2 :=
  ⟨rfl, (c6_remove_idempotent "ghost" sW rfl).2.1⟩

/-- The state after a first successful `put_permanent("cam", …)` on the
empty state, once a client has connected and the engine's configure
callback has recorded under "/cam" a handle whose unprepare fails. -/
def sC5 : AppState :=
  mediaConfigure "/cam" { upgrade := some mFail }
    (put_permanent_stream "cam"
      { name := "n1", source_url := "u1", down_scale := false } 0 1 sW).2

/-- C5 counterexample: before the second put exactly one "cam" entry is
registered, but the second put's internal removal fails (the recorded
handle's unprepare errors) after deleting the registry entry and before any
add: the pair of puts ends with zero registry entries for "cam", not the
exactly-one entry carrying the second call's data that the claim states. -/
theorem c5_counterexample :
    sC5.streams.map (fun e => e.id) = ["cam"] ∧
    ((put_permanent_stream "cam"
        { name := "n2", source_url := "u2", down_scale := false } 2 3
        sC5).2.streams.filter (fun e => e.id == "cam")) = [] := by
  decide

/-- When the internal removal succeeds, `put_permanent_stream` is exactly
the removal followed by an `expirable = false` add on the removal's
state. -/
theorem put_permanent_stream_of_ok (id : String)
    (r : AddPermanentStreamInput) (t1 t2 : Int) (s : AppState)
    (h : (remove_stream_by_id id s).1 = Except.ok ()) :
    put_permanent_stream id r t1 t2 s =
      add_stream_to_state t1 t2 (remove_stream_by_id id s).2.2
        { id := id, name := r.name, source_url := r.source_url,
          down_scale := r.down_scale, expirable := false } := by
  simp only [put_permanent_stream, h]

/-- C5 (amended): provided no handle recorded under "/" ++ id upgrades to a
media instance whose unprepare fails (so both internal removals succeed),
two successive put_permanent calls on the same id end with exactly one
registry entry for the id — carrying the second call's name, expiration
`Never` and the second `added_at` clock read — and with the factory mounted
at "/" ++ id built from the second call's source_url and down_scale; within
each put the removal precedes the mount (after the internal removal nothing
is mounted at the path), and the removal succeeds even when the id is
absent (NotFound is ignored). -/
theorem c5_put_put_replace (id : String) (r1 r2 : AddPermanentStreamInput)
    (t1 t2 t3 t4 : Int) (s : AppState)
    (h : noFailingUpgrade s ("/" ++ id) = true) :
    ((put_permanent_stream id r2 t3 t4
        (put_permanent_stream id r1 t1 t2 s).2).2.streams.filter
      (fun e => e.id == id)) =
      [ { id := id, name := r2.name, url := s.rtsp_root_url ++ id,
          expiration_date := ExpirationDate.Never, added_at := t4 } ] ∧
    mapGet (put_permanent_stream id r2 t3 t4
        (put_permanent_stream id r1 t1 t2 s).2).2.mounts ("/" ++ id) =
      some { launch := launchString r2.source_url r2.down_scale,
             shared := true } ∧
    ((remove_stream_by_id id
        (put_permanent_stream id r1 t1 t2 s).2).2.2.mounts.all
      (fun p => !(p.1 == "/" ++ id)) = true) ∧
    (remove_stream_by_id id s).1 = Except.ok () ∧
    (remove_stream_by_id id
        (put_permanent_stream id r1 t1 t2 s).2).1 = Except.ok () := by
  have hok1 : (remove_stream_by_id id s).1 = Except.ok () :=
    remove_stream_by_id_ok id s h
  have hput1 := put_permanent_stream_of_ok id r1 t1 t2 s hok1
  have hmm1 : (put_permanent_stream id r1 t1 t2 s).2.media_map =
      s.media_map := by
    rw [hput1, add_stream_to_state_media_map, remove_stream_by_id_media_map]
  have h' : noFailingUpgrade (put_permanent_stream id r1 t1 t2 s).2
      ("/" ++ id) = true := by
    rw [noFailingUpgrade_congr ("/" ++ id) hmm1]
    exact h
  have hok2 : (remove_stream_by_id id
      (put_permanent_stream id r1 t1 t2 s).2).1 = Except.ok () :=
    remove_stream_by_id_ok id _ h'
  have hput2 := put_permanent_stream_of_ok id r2 t3 t4
    (put_permanent_stream id r1 t1 t2 s).2 hok2
  have hroot1 : (remove_stream_by_id id s).2.2.rtsp_root_url =
      s.rtsp_root_url := remove_stream_by_id_root id s
  have hroot2 : (remove_stream_by_id id
      (put_permanent_stream id r1 t1 t2 s).2).2.2.rtsp_root_url =
      s.rtsp_root_url := by
    rw [remove_stream_by_id_root, hput1, add_stream_to_state_root,
      remove_stream_by_id_root]
  refine ⟨?_, ?_, ?_, hok1, hok2⟩
  · rw [hput2, add_stream_to_state_streams, hroot2,
      remove_stream_by_id_streams, hput1, add_stream_to_state_streams,
      hroot1, remove_stream_by_id_streams]
    simp [List.filter_append, List.filter_filter]
  · rw [hput2, add_stream_to_state_mounts]
    simpa using mapGet_addFactory ("/" ++ id)
      { launch := launchString r2.source_url r2.down_scale, shared := true }
      (remove_stream_by_id id (put_permanent_stream id r1 t1 t2 s).2).2.2.mounts
  · rw [remove_stream_by_id_mounts]
    exact removeFactory_all ("/" ++ id)
      (put_permanent_stream id r1 t1 t2 s).2.mounts

/-- Witness for C5: the amended theorem applied on the empty state.  -/
theorem c5_witness :
    noFailingUpgrade sW ("/" ++ "cam") = true ∧
    ((put_permanent_stream "cam"
        { name := "n2", source_url := "u2", down_scale := false } 2 3
        (put_permanent_stream "cam"
          { name := "n1", source_url := "u1", down_scale := false } 0 1
          sW).2).2.streams.filter (fun e => e.id == "cam")) =
      [ { id := "cam", name := "n2", url := sW.rtsp_root_url ++ "cam",
          expiration_date := ExpirationDate.Never, added_at := 3 } ] :=
  ⟨rfl, (c5_put_put_replace "cam"
      { name := "n1", source_url := "u1", down_scale := false }
      { name := "n2", source_url := "u2", down_scale := false }
      0 1 2 3 sW rfl).1⟩

end Relay
